import Mathlib

/-!
Verification of the simple-storage HTTP file service (`src/main.rs`).

The service keeps all state in a single flat directory `uploads`: every
path the program forms is `format!("uploads/{}", filename)`, so the store
is modelled as an association list from the filename (the storage key,
what `entry.file_name()` reports for a directory entry) to the stored
byte sequence.  Bytes are modelled as natural numbers.

Fallible I/O (`File::create`, `write_all`, `flush`, `fs::read_dir`, the
multipart stream) is modelled by an environment of success flags; a
handler that calls `.unwrap()` on a failed result panics, which the
embedding renders as `none`.
-/

namespace SimpleStorage

/-- Byte sequences (request bodies, file contents). -/
abbrev Bytes := List Nat

/-- Contents of the `uploads` directory: filename-keyed association list. -/
abbrev Store := List (String × Bytes)

/-- Query string of a request, as the decoded key/value pairs
(`Query<HashMap<String, String>>` in the source). -/
abbrev QueryMap := List (String × String)

/-- Lookup of a query parameter (`query.get("filename")`). -/
def queryGet (q : QueryMap) (k : String) : Option String :=
  match q with
  | [] => none
  | kv :: rest => if kv.1 == k then some kv.2 else queryGet rest k

/-- Set the entry named `f` to the bytes `b`, overwriting an existing
entry of that name (the effect of `File::create` + `write_all` on the
path `uploads/{f}`). -/
def setEntry (st : Store) (f : String) (b : Bytes) : Store :=
  match st with
  | [] => [(f, b)]
  | kv :: rest => if kv.1 == f then (f, b) :: rest else kv :: setEntry rest f b

/-- Read the entry named `f` (`fs::read("uploads/{f}")`), `none` when no
such entry exists. -/
def fsRead (st : Store) (f : String) : Option Bytes :=
  match st with
  | [] => none
  | kv :: rest => if kv.1 == f then some kv.2 else fsRead rest f

/-- Success flags for the fallible I/O a handler performs.  `createOk`
models `File::create`, `writeOk` models `write_all`, `flushOk` models
`flush`, `readDirOk` models `fs::read_dir`, and `multipartOk` models the
multipart stream (`next_field` / `bytes` succeeding). -/
structure IOEnv where
  createOk : Bool
  writeOk : Bool
  flushOk : Bool
  readDirOk : Bool
  multipartOk : Bool
deriving DecidableEq

/-- The environment in which every I/O operation succeeds. -/
def envOk : IOEnv := ⟨true, true, true, true, true⟩

/-- An HTTP response: status code, header list, body.  A bare
`StatusCode` reply carries no headers and an empty body. -/
structure Response where
  status : Nat
  headers : List (String × String)
  body : Bytes
deriving DecidableEq

/-- Response consisting of a bare error status code. -/
def errResponse (code : Nat) : Response := ⟨code, [], []⟩

/-- Validity of one character of a header value built by
`http::HeaderValue::from_str`: a byte is accepted iff it is `>= 32` and
not `127`, or is horizontal tab (`9`); characters above `127` encode to
UTF-8 bytes `>= 128`, which are accepted. -/
def headerCharValid (c : Char) : Bool :=
  (32 ≤ c.toNat && c.toNat ≠ 127) || c.toNat == 9

/-- Validity of a whole header value string under
`http::HeaderValue::from_str`; `from_str(..).unwrap()` panics exactly
when this is `false`. -/
def headerValueValid (s : String) : Bool :=
  s.data.all headerCharValid

/-- Embedding of `upload_file` (src/main.rs lines 50-71): missing
`filename` query parameter gives 400; a `File::create` failure gives
400; after a successful create (which truncates the entry) a
`write_all` or `flush` failure gives 500; otherwise the body is stored
under the filename and the reply is 201 with no body. -/
def upload_file (env : IOEnv) (query : QueryMap) (body : Bytes) (st : Store) :
    Response × Store :=
  match queryGet query "filename" with
  | none => (errResponse 400, st)
  | some filename =>
    if env.createOk then
      let st1 := setEntry st filename []
      if env.writeOk && env.flushOk then
        (⟨201, [], []⟩, setEntry st1 filename body)
      else
        (errResponse 500, st1)
    else
      (errResponse 400, st)

/-- Response of the listing handler: status plus the JSON array of
filenames. -/
structure ListResponse where
  status : Nat
  names : List String
deriving DecidableEq

/-- Embedding of `list_upload` (src/main.rs lines 74-86): on a
successful `fs::read_dir` it replies 200 with the entry names (the
model's names are strings, so the `into_string` filter keeps them all);
on an enumeration failure it replies 200 with the empty array
(`axum::Json` of a value is a 200 reply). -/
def list_upload (env : IOEnv) (st : Store) : ListResponse :=
  if env.readDirOk then ⟨200, st.map (fun kv => kv.1)⟩ else ⟨200, []⟩

/-- Embedding of `download` (src/main.rs lines 96-111): missing
`filename` parameter gives 400; a failed `fs::read` is `unwrap`ped, so
the handler panics (`none`); on a successful read the source builds a
`Content-Disposition` header value with `HeaderValue::from_str(..).unwrap()`
(panicking when the interpolated filename makes the value invalid) but
then drops the header map, returning `Ok((StatusCode::OK, body))` with
no headers. -/
def download (query : QueryMap) (st : Store) : Option Response :=
  match queryGet query "filename" with
  | none => some (errResponse 400)
  | some filename =>
    match fsRead st filename with
    | none => none
    | some body =>
      if headerValueValid ("attachment; filename=" ++ filename) then
        some ⟨200, [], body⟩
      else
        none

/-- One multipart form field as the handler observes it: optional field
name, filename and content type, plus the buffered byte payload. -/
structure Field where
  name : Option String
  fileName : Option String
  contentType : Option String
  data : Bytes
deriving DecidableEq

/-- Embedding of `upload_mul` (src/main.rs lines 113-140): a malformed
multipart stream makes `next_field().unwrap()` (or `bytes().unwrap()`)
panic; a stream with no field gives 400; the first field's name,
filename and content type are each `unwrap`ped, so a field lacking any
of them panics; otherwise the first field's payload is written under its
filename exactly as in `upload_file`, and every remaining field is
ignored. -/
def upload_mul (env : IOEnv) (fields : List Field) (st : Store) :
    Option Response × Store :=
  if env.multipartOk then
    match fields with
    | [] => (some (errResponse 400), st)
    | field :: _rest =>
      match field.name, field.fileName, field.contentType with
      | some _n, some file_name, some _ct =>
        if env.createOk then
          let st1 := setEntry st file_name []
          if env.writeOk && env.flushOk then
            (some ⟨201, [], []⟩, setEntry st1 file_name field.data)
          else
            (some (errResponse 500), st1)
        else
          (some (errResponse 400), st)
      | _, _, _ => (none, st)
  else
    (none, st)

/-! ### Store lemmas -/

/-- Reading an entry just written returns the written bytes. -/
theorem fsRead_setEntry_self (st : Store) (f : String) (b : Bytes) :
    fsRead (setEntry st f b) f = some b := by
  induction st with
  | nil => simp [fsRead, setEntry]
  | cons kv rest ih =>
    by_cases h : kv.1 == f
    · simp [setEntry, fsRead, h]
    · simp [setEntry, fsRead, h, ih]

/-- Writing entry `f` leaves every other entry unchanged. -/
theorem fsRead_setEntry_of_ne (st : Store) (f g : String) (b : Bytes)
    (h : g ≠ f) : fsRead (setEntry st f b) g = fsRead st g := by
  induction st with
  | nil =>
    have hg : (f == g) = false := beq_eq_false_iff_ne.mpr (Ne.symm h)
    simp [fsRead, setEntry, hg]
  | cons kv rest ih =>
    by_cases hk : kv.1 == f
    · have hkf : kv.1 = f := eq_of_beq hk
      have hg : (f == g) = false := beq_eq_false_iff_ne.mpr (Ne.symm h)
      simp [setEntry, fsRead, hk, hkf, hg]
    · simp [setEntry, fsRead, hk, ih]

/-- An entry is readable exactly when its name appears among the store's
keys. -/
theorem fsRead_some_iff_mem (st : Store) (f : String) :
    (∃ b, fsRead st f = some b) ↔ f ∈ st.map (fun kv => kv.1) := by
  induction st with
  | nil => simp [fsRead]
  | cons kv rest ih =>
    by_cases h : kv.1 == f
    · have hkf : kv.1 = f := eq_of_beq h
      simp [fsRead, h, hkf]
    · have hne : kv.1 ≠ f := ne_of_beq_false (by simpa using h)
      simp [fsRead, h, ih, Ne.symm hne]

/-- Uploading `p` under `f` in the all-success environment and then
downloading `f` yields 200 with body `p`, provided the interpolated
`Content-Disposition` value for `f` is a valid header value (otherwise
the download handler panics on `HeaderValue::from_str(..).unwrap()`). -/
theorem upload_then_download (f : String) (p : Bytes) (st : Store)
    (h : headerValueValid ("attachment; filename=" ++ f) = true) :
    download [("filename", f)] (upload_file envOk [("filename", f)] p st).2 =
      some ⟨200, [], p⟩ := by
  have hq : queryGet [("filename", f)] "filename" = some f := rfl
  simp [upload_file, download, hq, envOk, fsRead_setEntry_self, h]

/-! ### Claims -/

/-- C1 (counterexample): the round-trip claim fails as stated.  For the
filename `"a\nb"` (a linefeed is reachable via a percent-encoded query
parameter and is legal in a stored filename), the raw-body upload
succeeds, but the subsequent download panics: `HeaderValue::from_str`
rejects the linefeed in `"attachment; filename=a\nb"` and the handler
`unwrap`s it.  No 200 response with the payload is produced. -/
theorem C1_counterexample :
    download [("filename", "a\nb")]
      (upload_file envOk [("filename", "a\nb")] [104] []).2 = none := by
  decide

/-- C1 (amended): for every filename `f` whose interpolated
`Content-Disposition` value is a valid header value (no control
characters other than tab, no DEL byte), and every payload `p`,
uploading `p` under `f` (which replies 201) and then downloading `f`
returns status 200 with body exactly `p`. -/
theorem C1_roundtrip (f : String) (p : Bytes) (st : Store)
    (h : headerValueValid ("attachment; filename=" ++ f) = true) :
    (upload_file envOk [("filename", f)] p st).1 = ⟨201, [], []⟩ ∧
    download [("filename", f)] (upload_file envOk [("filename", f)] p st).2 =
      some ⟨200, [], p⟩ := by
  have hq : queryGet [("filename", f)] "filename" = some f := rfl
  exact ⟨by simp [upload_file, hq, envOk], upload_then_download f p st h⟩

/-- C1 (witness): the round trip at filename `"a.txt"`, payload
`[104, 105]`, empty store. -/
theorem C1_roundtrip_witness :
    (upload_file envOk [("filename", "a.txt")] [104, 105] []).1 = ⟨201, [], []⟩ ∧
    download [("filename", "a.txt")]
      (upload_file envOk [("filename", "a.txt")] [104, 105] []).2 =
      some ⟨200, [], [104, 105]⟩ :=
  C1_roundtrip "a.txt" [104, 105] [] (by decide)

/-- C2 (code bug): downloading a filename with no stored entry does not
return 404 — the handler calls `fs::read(upload_path).unwrap()`, which
panics on the read error, so no response is produced at all. -/
theorem C2_read_failure_panics :
    download [("filename", "ghost")] ([] : Store) = none := rfl

/-- C3 (code bug): a successful download of a stored file carries no
`Content-Disposition` header: the source builds the header map but never
attaches it to the response (`Ok((StatusCode::OK, body))`), so the
response has status 200, an empty header list, and the file bytes. -/
theorem C3_no_content_disposition :
    download [("filename", "a.txt")] [("a.txt", [104, 105])] =
      some ⟨200, [], [104, 105]⟩ := by
  decide

/-- C4 (counterexample): a multipart request whose first (and only)
field lacks a filename does not get a 400 reply — the handler panics on
`field.file_name().unwrap()`, producing no response. -/
theorem C4_counterexample :
    upload_mul envOk [⟨some "file", none, some "text/plain", [104]⟩]
      ([] : Store) = (none, []) := by
  decide

/-- C4 (amended): `upload_mul` replies 400 exactly when the stream
yields no field; a malformed multipart stream panics (via
`next_field().unwrap()`), and a first field lacking a name, filename or
content type panics (via `unwrap` on the missing item) instead of
replying 400. -/
theorem C4_multipart_errors (env : IOEnv) (st : Store) (fields : List Field)
    (field : Field) (rest : List Field) :
    (env.multipartOk = true →
      upload_mul env [] st = (some (errResponse 400), st)) ∧
    (env.multipartOk = false → upload_mul env fields st = (none, st)) ∧
    (env.multipartOk = true →
      field.name = none ∨ field.fileName = none ∨ field.contentType = none →
      upload_mul env (field :: rest) st = (none, st)) := by
  refine ⟨fun h => by simp [upload_mul, h], fun h => by simp [upload_mul, h],
    fun h hf => ?_⟩
  rcases hf with hf | hf | hf
  · simp [upload_mul, h, hf]
  · cases hn : field.name <;> simp [upload_mul, h, hf, hn]
  · cases hn : field.name <;> cases hfn : field.fileName <;>
      simp [upload_mul, h, hf, hn, hfn]

/-- C4 (witness): the empty form gets 400, in the all-success
environment on the empty store. -/
theorem C4_multipart_errors_witness :
    upload_mul envOk [] ([] : Store) = (some (errResponse 400), []) :=
  (C4_multipart_errors envOk [] [] ⟨none, none, none, []⟩ []).1 rfl

/-- C5 (confirmed): `upload_file` replies 400 when the `filename` query
parameter is missing, 400 when `File::create` fails, 500 when the write
or the flush fails after a successful create, and otherwise 201 with no
headers and no body. -/
theorem C5_upload_file_status (env : IOEnv) (q : QueryMap) (body : Bytes)
    (st : Store) :
    (queryGet q "filename" = none →
      upload_file env q body st = (errResponse 400, st)) ∧
    (queryGet q "filename" ≠ none → env.createOk = false →
      upload_file env q body st = (errResponse 400, st)) ∧
    (queryGet q "filename" ≠ none → env.createOk = true →
      env.writeOk = false ∨ env.flushOk = false →
      (upload_file env q body st).1 = errResponse 500) ∧
    (queryGet q "filename" ≠ none → env.createOk = true →
      env.writeOk = true → env.flushOk = true →
      (upload_file env q body st).1 = ⟨201, [], []⟩) := by
  refine ⟨fun h => by simp [upload_file, h], fun h hc => ?_, fun h hc hw => ?_,
    fun h hc hw hfl => ?_⟩
  · rcases Option.ne_none_iff_exists'.mp h with ⟨f, hf⟩
    simp [upload_file, hf, hc]
  · rcases Option.ne_none_iff_exists'.mp h with ⟨f, hf⟩
    rcases hw with hw | hw <;> simp [upload_file, hf, hc, hw]
  · rcases Option.ne_none_iff_exists'.mp h with ⟨f, hf⟩
    simp [upload_file, hf, hc, hw, hfl]

/-- C5 (witness): a failing write after a successful create yields 500,
at filename `"a.txt"` and payload `[104]`. -/
theorem C5_upload_file_status_witness :
    (upload_file ⟨true, false, true, true, true⟩ [("filename", "a.txt")]
      [104] []).1 = errResponse 500 :=
  (C5_upload_file_status ⟨true, false, true, true, true⟩
    [("filename", "a.txt")] [104] []).2.2.1 (by decide) rfl (Or.inl rfl)

/-- C6 (counterexample): a two-field multipart upload whose first field
lacks a filename does not store the first field's payload under anything
and is not an error-free ignore of the second field: the handler panics
on `field.file_name().unwrap()` before reaching the store, so no
response is produced and nothing is persisted. -/
theorem C6_counterexample :
    upload_mul envOk
      [⟨some "f1", none, some "text/plain", [104]⟩,
       ⟨some "f2", some "g.txt", some "text/plain", [105]⟩]
      ([] : Store) = (none, []) := by
  decide

/-- C6 (amended): for every multipart upload whose first field carries a
name, filename and content type, `upload_mul` replies 201 and stores
exactly the first field's payload under the first field's filename,
leaves every other entry unchanged, and is entirely independent of the
remaining fields — their data is never persisted under any key. -/
theorem C6_first_field_rule (field : Field) (rest : List Field) (st : Store)
    (n fn ct : String) (hn : field.name = some n)
    (hf : field.fileName = some fn) (hc : field.contentType = some ct) :
    (upload_mul envOk (field :: rest) st).1 = some ⟨201, [], []⟩ ∧
    fsRead (upload_mul envOk (field :: rest) st).2 fn = some field.data ∧
    (∀ g, g ≠ fn →
      fsRead (upload_mul envOk (field :: rest) st).2 g = fsRead st g) ∧
    upload_mul envOk (field :: rest) st = upload_mul envOk [field] st := by
  have hred : upload_mul envOk (field :: rest) st =
      (some ⟨201, [], []⟩, setEntry (setEntry st fn []) fn field.data) := by
    simp [upload_mul, envOk, hn, hf, hc]
  have hred1 : upload_mul envOk [field] st =
      (some ⟨201, [], []⟩, setEntry (setEntry st fn []) fn field.data) := by
    simp [upload_mul, envOk, hn, hf, hc]
  refine ⟨by rw [hred], by rw [hred]; exact fsRead_setEntry_self _ _ _,
    fun g hg => ?_, by rw [hred, hred1]⟩
  rw [hred]
  exact (fsRead_setEntry_of_ne _ _ _ _ hg).trans
    (fsRead_setEntry_of_ne _ _ _ _ hg)

/-- C6 (witness): two well-formed fields on the empty store: the first
field's bytes land under `"a.txt"`, `"b.txt"` stays absent, and the
result equals that of the one-field upload. -/
theorem C6_first_field_rule_witness :
    (upload_mul envOk
      [⟨some "f1", some "a.txt", some "text/plain", [104]⟩,
       ⟨some "f2", some "b.txt", some "text/plain", [105]⟩] []).1 =
      some ⟨201, [], []⟩ ∧
    fsRead (upload_mul envOk
      [⟨some "f1", some "a.txt", some "text/plain", [104]⟩,
       ⟨some "f2", some "b.txt", some "text/plain", [105]⟩] []).2 "a.txt" =
      some [104] ∧
    fsRead (upload_mul envOk
      [⟨some "f1", some "a.txt", some "text/plain", [104]⟩,
       ⟨some "f2", some "b.txt", some "text/plain", [105]⟩] []).2 "b.txt" =
      fsRead ([] : Store) "b.txt" ∧
    upload_mul envOk
      [⟨some "f1", some "a.txt", some "text/plain", [104]⟩,
       ⟨some "f2", some "b.txt", some "text/plain", [105]⟩] [] =
      upload_mul envOk [⟨some "f1", some "a.txt", some "text/plain", [104]⟩] [] :=
  have h := C6_first_field_rule
    ⟨some "f1", some "a.txt", some "text/plain", [104]⟩
    [⟨some "f2", some "b.txt", some "text/plain", [105]⟩] []
    "f1" "a.txt" "text/plain" rfl rfl rfl
  ⟨h.1, h.2.1, h.2.2.1 "b.txt" (by decide), h.2.2.2⟩

/-- C7 (confirmed): whenever enumerating the storage root fails
(`fs::read_dir` returns an error), `list_upload` replies with the
success status 200 and the empty array — the error is never surfaced. -/
theorem C7_listing_swallows_errors (env : IOEnv) (st : Store)
    (h : env.readDirOk = false) : list_upload env st = ⟨200, []⟩ := by
  simp [list_upload, h]

/-- C7 (witness): a failing enumeration over a non-empty store still
replies 200 with the empty array. -/
theorem C7_listing_swallows_errors_witness :
    list_upload ⟨true, true, true, false, true⟩ [("a.txt", [104])] =
      ⟨200, []⟩ :=
  C7_listing_swallows_errors ⟨true, true, true, false, true⟩
    [("a.txt", [104])] rfl

/-- C8 (counterexample): the overwrite claim fails as stated.  For the
filename `"a\nb"`, uploading `[104]` then `[105]` succeeds, but the
subsequent download returns neither payload: it panics on
`HeaderValue::from_str(..).unwrap()` because of the linefeed, so no 200
response with `p2` is produced. -/
theorem C8_counterexample :
    download [("filename", "a\nb")]
      (upload_file envOk [("filename", "a\nb")] [105]
        (upload_file envOk [("filename", "a\nb")] [104] []).2).2 = none := by
  decide

/-- C8 (amended): for every filename `f` whose interpolated
`Content-Disposition` value is a valid header value, uploading `p1` then
`p2` under `f` makes a subsequent download of `f` return 200 with body
`p2`, and (whenever `p1 ≠ p2`) never `p1`: the second upload fully
replaces the content. -/
theorem C8_overwrite (f : String) (p1 p2 : Bytes) (st : Store)
    (h : headerValueValid ("attachment; filename=" ++ f) = true) :
    download [("filename", f)]
      (upload_file envOk [("filename", f)] p2
        (upload_file envOk [("filename", f)] p1 st).2).2 =
      some ⟨200, [], p2⟩ ∧
    (p1 ≠ p2 →
      download [("filename", f)]
        (upload_file envOk [("filename", f)] p2
          (upload_file envOk [("filename", f)] p1 st).2).2 ≠
        some ⟨200, [], p1⟩) := by
  have h2 := upload_then_download f p2
    (upload_file envOk [("filename", f)] p1 st).2 h
  refine ⟨h2, fun hne heq => ?_⟩
  rw [h2] at heq
  exact hne (congrArg Response.body (Option.some.inj heq)).symm

/-- C8 (witness): overwriting `[104]` with `[105]` under `"a.txt"`: the
download returns `[105]` and not `[104]`. -/
theorem C8_overwrite_witness :
    download [("filename", "a.txt")]
      (upload_file envOk [("filename", "a.txt")] [105]
        (upload_file envOk [("filename", "a.txt")] [104] []).2).2 =
      some ⟨200, [], [105]⟩ ∧
    download [("filename", "a.txt")]
      (upload_file envOk [("filename", "a.txt")] [105]
        (upload_file envOk [("filename", "a.txt")] [104] []).2).2 ≠
      some ⟨200, [], [104]⟩ :=
  have h := C8_overwrite "a.txt" [104] [105] [] (by decide)
  ⟨h.1, h.2 (by decide)⟩

/-- C9 (confirmed): every successful listing replies 200 with the set of
names of exactly the entries currently present: every stored entry's
name is in the returned array, and every name in the array belongs to a
stored entry. -/
theorem C9_listing_names (env : IOEnv) (st : Store)
    (h : env.readDirOk = true) :
    (list_upload env st).status = 200 ∧
    (∀ f b, fsRead st f = some b → f ∈ (list_upload env st).names) ∧
    (∀ f, f ∈ (list_upload env st).names → ∃ b, fsRead st f = some b) := by
  have hred : list_upload env st = ⟨200, st.map (fun kv => kv.1)⟩ := by
    simp [list_upload, h]
  refine ⟨by rw [hred], fun f b hb => ?_, fun f hf => ?_⟩
  · rw [hred]
    exact (fsRead_some_iff_mem st f).mp ⟨b, hb⟩
  · rw [hred] at hf
    exact (fsRead_some_iff_mem st f).mpr hf

/-- C9 (witness): over a two-entry store the listing replies 200 and
contains the stored name `"a.txt"`. -/
theorem C9_listing_names_witness :
    (list_upload envOk [("a.txt", [104]), ("b.txt", [105])]).status = 200 ∧
    "a.txt" ∈ (list_upload envOk [("a.txt", [104]), ("b.txt", [105])]).names :=
  have h := C9_listing_names envOk [("a.txt", [104]), ("b.txt", [105])] rfl
  ⟨h.1, h.2.1 "a.txt" [104] rfl⟩

/-- C10 (confirmed): an upload touches only the entry it names.  A raw
upload with filename `f` leaves every entry other than `f` unchanged and
leaves the store untouched when the parameter is missing; a multipart
upload of an empty form leaves the store untouched, one whose first
field names `fn` leaves every entry other than `fn` unchanged, and one
whose first field lacks a filename (the panic path) leaves the store
untouched. -/
theorem C10_upload_frame (env : IOEnv) (q : QueryMap) (body : Bytes)
    (st : Store) (field : Field) (rest : List Field) :
    (∀ f, queryGet q "filename" = some f →
      ∀ g, g ≠ f → fsRead (upload_file env q body st).2 g = fsRead st g) ∧
    (queryGet q "filename" = none → (upload_file env q body st).2 = st) ∧
    (upload_mul env [] st).2 = st ∧
    (∀ fn, field.fileName = some fn →
      ∀ g, g ≠ fn →
        fsRead (upload_mul env (field :: rest) st).2 g = fsRead st g) ∧
    (field.fileName = none → (upload_mul env (field :: rest) st).2 = st) := by
  refine ⟨fun f hf g hg => ?_, fun h => by simp [upload_file, h], ?_,
    fun fn hfn g hg => ?_, fun hfn => ?_⟩
  · cases hc : env.createOk
    · simp [upload_file, hf, hc]
    · cases hw : (env.writeOk && env.flushOk)
      · have hred : (upload_file env q body st).2 = setEntry st f [] := by
          simp [upload_file, hf, hc, hw]
        rw [hred, fsRead_setEntry_of_ne _ _ _ _ hg]
      · have hred : (upload_file env q body st).2 =
            setEntry (setEntry st f []) f body := by
          simp [upload_file, hf, hc, hw]
        rw [hred, fsRead_setEntry_of_ne _ _ _ _ hg,
          fsRead_setEntry_of_ne _ _ _ _ hg]
  · cases hm : env.multipartOk <;> simp [upload_mul, hm]
  · cases hm : env.multipartOk
    · simp [upload_mul, hm]
    · cases hn : field.name
      · simp [upload_mul, hm, hn]
      · cases hc2 : field.contentType
        · simp [upload_mul, hm, hn, hfn, hc2]
        · cases hcr : env.createOk
          · simp [upload_mul, hm, hn, hfn, hc2, hcr]
          · cases hw : (env.writeOk && env.flushOk)
            · have hred : (upload_mul env (field :: rest) st).2 =
                  setEntry st fn [] := by
                simp [upload_mul, hm, hn, hfn, hc2, hcr, hw]
              rw [hred, fsRead_setEntry_of_ne _ _ _ _ hg]
            · have hred : (upload_mul env (field :: rest) st).2 =
                  setEntry (setEntry st fn []) fn field.data := by
                simp [upload_mul, hm, hn, hfn, hc2, hcr, hw]
              rw [hred, fsRead_setEntry_of_ne _ _ _ _ hg,
                fsRead_setEntry_of_ne _ _ _ _ hg]
  · cases hm : env.multipartOk
    · simp [upload_mul, hm]
    · cases hn : field.name <;> simp [upload_mul, hm, hn, hfn]

/-- C10 (witness): uploading `[104]` under `"a.txt"` leaves the existing
entry `"b.txt"` unchanged. -/
theorem C10_upload_frame_witness :
    fsRead (upload_file envOk [("filename", "a.txt")] [104]
      [("b.txt", [105])]).2 "b.txt" = fsRead [("b.txt", [105])] "b.txt" :=
  (C10_upload_frame envOk [("filename", "a.txt")] [104] [("b.txt", [105])]
    ⟨none, none, none, []⟩ []).1 "a.txt" rfl "b.txt" (by decide)

end SimpleStorage
